import Mathlib

/-!
Shallow embedding of the linebot-ap2 mandate / credential / payment core
(`src/linebot_ap2/models/payment.py`, `src/linebot_ap2/services/mandate_service.py`,
`src/linebot_ap2/services/payment_service.py`,
`src/linebot_ap2/services/credential_provider.py`).

Modelling conventions:
* Python `float` amounts are modelled as exact rationals (`ℚ`);
* `datetime` values are modelled as natural-number timestamps, with
  `datetime.now()` an explicit `now : Nat` argument to each operation;
* Python dicts are modelled as insertion-ordered association lists with
  `setKey` / `delKey` mirroring `d[k] = v` / `del d[k]`;
* randomly generated identifiers, OTP codes and nonces are explicit arguments
  (`freshId`, `otpCode`, `nonce`, ...);
* the external HMAC-SHA256 and Fernet primitives (from the `hmac` /
  `cryptography` libraries, outside this repository) are modelled as opaque
  injective string formatting.
-/

namespace LinebotAP2

/-- Association-list update, mirroring Python `d[k] = v` (replaces in place,
appends at the end for a new key). -/
def setKey {α : Type} : List (String × α) → String → α → List (String × α)
  | [], k, v => [(k, v)]
  | (k', v') :: t, k, v => if k' = k then (k, v) :: t else (k', v') :: setKey t k v

/-- Association-list deletion, mirroring Python `del d[k]`. -/
def delKey {α : Type} : List (String × α) → String → List (String × α)
  | [], _ => []
  | (k', v') :: t, k => if k' = k then delKey t k else (k', v') :: delKey t k

/-- Association-list lookup, mirroring Python `d.get(k)`. -/
def getKey {α : Type} : List (String × α) → String → Option α
  | [], _ => none
  | (k', v') :: t, k => if k' = k then some v' else getKey t k

/-- Payment status values (`models.payment.PaymentStatus`). -/
inductive PaymentStatus
  | pending | pendingOtp | processing | completed | failed | expired | cancelled
deriving DecidableEq, Repr

/-- String value of a payment status (the `str` enum value). -/
def PaymentStatus.value : PaymentStatus → String
  | .pending => "pending"
  | .pendingOtp => "pending_otp"
  | .processing => "processing"
  | .completed => "completed"
  | .failed => "failed"
  | .expired => "expired"
  | .cancelled => "cancelled"

/-- Payment method types (`models.payment.PaymentMethodType`). -/
inductive PaymentMethodType
  | card | wallet | bankTransfer
deriving DecidableEq, Repr

/-- String value of a payment method type. -/
def PaymentMethodType.value : PaymentMethodType → String
  | .card => "card"
  | .wallet => "wallet"
  | .bankTransfer => "bank_transfer"

/-- Cart line item (`models.payment.CartItem`). The pydantic constraint
`quantity : int = Field(ge=1)` is enforced at construction (`mkCartItem`). -/
structure CartItem where
  productId : String
  name : String
  price : ℚ
  quantity : Int
  subtotal : ℚ
deriving DecidableEq, Repr

/-- Verifiable payer identity (`models.payment.PayerInfo`). -/
structure PayerInfo where
  userId : String
  verified : Bool
deriving DecidableEq, Repr

/-- Verifiable payee identity (`models.payment.PayeeInfo`). -/
structure PayeeInfo where
  merchantId : String
  merchantName : String
  merchantUrl : Option String
deriving DecidableEq, Repr

/-- Cart mandate (`models.payment.CartMandate`). -/
structure CartMandate where
  mandateId : String
  userId : String
  items : List CartItem
  totalAmount : ℚ
  currency : String
  payerInfo : Option PayerInfo := none
  payeeInfo : Option PayeeInfo := none
  merchantSignature : Option String := none
  merchantSignedAt : Option Nat := none
  userSignature : Option String := none
  userSignedAt : Option Nat := none
  createdAt : Nat
  expiresAt : Option Nat := none
  status : PaymentStatus
deriving DecidableEq, Repr

/-- Embedding of `CartMandate.calculate_total`. -/
def CartMandate.calculateTotal (m : CartMandate) : ℚ :=
  (m.items.map (·.subtotal)).sum

/-- Embedding of `CartMandate.is_expired`: `datetime.now() > expires_at` when set. -/
def CartMandate.isExpired (m : CartMandate) (now : Nat) : Bool :=
  match m.expiresAt with
  | some e => now > e
  | none => false

/-- Embedding of `CartMandate.is_merchant_signed`. -/
def CartMandate.isMerchantSigned (m : CartMandate) : Bool :=
  m.merchantSignature.isSome

/-- Embedding of `CartMandate.is_user_signed`. -/
def CartMandate.isUserSigned (m : CartMandate) : Bool :=
  m.userSignature.isSome

/-- Model of the external `hmac.new(key, payload, sha256).hexdigest()` call:
the keyed hash is treated as an opaque pairing of key and payload. -/
def hmacSha256 (key payload : String) : String :=
  "HMAC-SHA256(" ++ key ++ ";" ++ payload ++ ")"

/-- Model of `json.dumps(payload, sort_keys=True, separators=(",", ":"))`
applied to a string-valued dict already listed in sorted key order. -/
def encodePayload : List (String × String) → String
  | [] => ""
  | (k, v) :: t => k ++ ":" ++ v ++ ";" ++ encodePayload t

/-- Input item dict for `create_cart_mandate` (`item_data` in the source);
`quantity` is `item_data.get("quantity", 1)`. -/
structure ItemData where
  productId : String
  name : String
  price : ℚ
  quantity : Option Int := none
deriving DecidableEq, Repr

/-- Construction of one `CartItem` from an input dict, as in the
`create_cart_mandate` loop. Pydantic raises a `ValidationError` when the
`ge=1` bound on `quantity` fails; price is unconstrained. -/
def mkCartItem (d : ItemData) : Except String CartItem :=
  let q := d.quantity.getD 1
  if q < 1 then .error "ValidationError: quantity must be greater than or equal to 1"
  else .ok { productId := d.productId, name := d.name, price := d.price,
             quantity := q, subtotal := d.price * (q : ℚ) }

/-- Mandate service state (`MandateService.__init__`):
`secret_key` plus the `active_mandates` store. -/
structure MandateState where
  secretKey : String := "demo_secret_key"
  activeMandates : List (String × CartMandate) := []
deriving Repr

/-- The `for item_data in items` loop of `create_cart_mandate`: builds each
`CartItem` in order, propagating the pydantic validation failure. -/
def buildCartItems : List ItemData → Except String (List CartItem)
  | [] => .ok []
  | d :: t =>
    match mkCartItem d with
    | .error e => .error e
    | .ok item =>
      match buildCartItems t with
      | .error e => .error e
      | .ok rest => .ok (item :: rest)

/-- Embedding of `MandateService.create_cart_mandate`: builds one `CartItem` per input dict
(pydantic validation may fail), accumulates the total, stores the mandate
under the freshly generated id and returns it. There is no empty-items check
and no price-sign check in the source. -/
def createCartMandate (st : MandateState) (userId : String) (items : List ItemData)
    (currency : String) (expiresInMinutes : Nat) (now : Nat) (freshId : String) :
    Except String (CartMandate × MandateState) :=
  match buildCartItems items with
  | .error e => .error e
  | .ok cartItems =>
    let totalAmount := (cartItems.map (·.subtotal)).sum
    let mandate : CartMandate :=
      { mandateId := freshId, userId := userId, items := cartItems,
        totalAmount := totalAmount, currency := currency, createdAt := now,
        expiresAt := some (now + expiresInMinutes * 60), status := .pending }
    .ok (mandate, { st with activeMandates := setKey st.activeMandates freshId mandate })

/-- Merchant-signature payload (`merchant_sign_mandate`), listed in
`sort_keys=True` order. -/
def merchantSignPayload (m : CartMandate) (merchantId : String)
    (timestamp : Nat) (nonce : String) : List (String × String) :=
  [("currency", m.currency),
   ("items_count", toString m.items.length),
   ("mandate_id", m.mandateId),
   ("merchant_id", merchantId),
   ("nonce", nonce),
   ("signer", "merchant"),
   ("timestamp", toString timestamp),
   ("total_amount", toString m.totalAmount)]

/-- Embedding of `MandateService.merchant_sign_mandate`: sets payee info, computes the
HMAC signature over the merchant payload, stamps the mandate and stores it.
Always succeeds. -/
def merchantSignMandate (st : MandateState) (mandate : CartMandate)
    (merchantId merchantName : String) (timestamp : Nat) (nonce : String) :
    CartMandate × MandateState :=
  let m1 := { mandate with
    payeeInfo := some { merchantId := merchantId, merchantName := merchantName,
                        merchantUrl := some "https://demo-store.example.com" } }
  let sig := hmacSha256 st.secretKey (encodePayload (merchantSignPayload m1 merchantId timestamp nonce))
  let m2 := { m1 with merchantSignature := some sig, merchantSignedAt := some timestamp }
  (m2, { st with activeMandates := setKey st.activeMandates m2.mandateId m2 })

/-- User-signature payload (`user_sign_mandate`), listed in `sort_keys=True`
order; it embeds the merchant signature, chaining the two signatures. -/
def userSignPayload (m : CartMandate) (userId : String)
    (timestamp : Nat) (nonce : String) : List (String × String) :=
  [("currency", m.currency),
   ("mandate_id", m.mandateId),
   ("merchant_signature", m.merchantSignature.getD ""),
   ("nonce", nonce),
   ("signer", "user"),
   ("timestamp", toString timestamp),
   ("total_amount", toString m.totalAmount),
   ("user_id", userId)]

/-- Success branch of `user_sign_mandate`: sets payer info, computes the
chained signature over the user payload and stamps the mandate. -/
def userSignSuccess (secretKey : String) (mandate : CartMandate) (userId : String)
    (timestamp : Nat) (nonce : String) : CartMandate :=
  let m1 := { mandate with payerInfo := some { userId := userId, verified := true } }
  let sig := hmacSha256 secretKey (encodePayload (userSignPayload m1 userId timestamp nonce))
  { m1 with userSignature := some sig, userSignedAt := some timestamp }

/-- Embedding of `MandateService.user_sign_mandate`: fails when the mandate is unknown,
not merchant-signed yet, or the caller is not the mandate's user; otherwise
sets payer info and the chained user signature and stores the mandate. -/
def userSignMandate (st : MandateState) (mandateId userId : String)
    (timestamp : Nat) (nonce : String) : Except String (CartMandate × MandateState) :=
  match getKey st.activeMandates mandateId with
  | none => .error ("Mandate " ++ mandateId ++ " not found")
  | some mandate =>
    if ¬ mandate.isMerchantSigned then
      .error "Mandate must be merchant-signed before user signing"
    else if mandate.userId ≠ userId then
      .error "User ID mismatch"
    else
      let m2 := userSignSuccess st.secretKey mandate userId timestamp nonce
      .ok (m2, { st with activeMandates := setKey st.activeMandates mandateId m2 })

/-- Embedding of `MandateService.update_mandate_status`. -/
def updateMandateStatus (st : MandateState) (mandateId : String)
    (status : PaymentStatus) : Bool × MandateState :=
  match getKey st.activeMandates mandateId with
  | some m =>
    (true, { st with activeMandates := setKey st.activeMandates mandateId { m with status := status } })
  | none => (false, st)

/-- Embedding of `MandateService.is_mandate_valid`: false for an unknown id; for an
expired mandate flips the status to `expired` and returns false; otherwise
true iff the status is `pending` or `pending_otp`. -/
def isMandateValid (st : MandateState) (mandateId : String) (now : Nat) :
    Bool × MandateState :=
  match getKey st.activeMandates mandateId with
  | none => (false, st)
  | some m =>
    if m.isExpired now then
      (false, (updateMandateStatus st mandateId .expired).2)
    else
      (m.status = PaymentStatus.pending ∨ m.status = PaymentStatus.pendingOtp, st)

/-- Embedding of `MandateService.cleanup_expired_mandates`: deletes every stored mandate
past expiry, returning the count removed. -/
def cleanupExpiredMandates (st : MandateState) (now : Nat) : Nat × MandateState :=
  let expired := (st.activeMandates.filter (fun p => p.2.isExpired now)).map (·.1)
  (expired.length,
   { st with activeMandates := st.activeMandates.filter (fun p => ¬ p.2.isExpired now) })

/-- OTP verification data (`models.payment.OTPData`). -/
structure OTPData where
  otp : String
  userId : String
  mandateId : String
  paymentMethodId : String
  expiresAt : Nat
  attempts : Nat := 0
  maxAttempts : Nat := 3
  createdAt : Nat
deriving DecidableEq, Repr

/-- Embedding of `OTPData.is_expired`. -/
def OTPData.isExpired (d : OTPData) (now : Nat) : Bool := now > d.expiresAt

/-- Embedding of `OTPData.is_blocked`. -/
def OTPData.isBlocked (d : OTPData) : Bool := d.attempts ≥ d.maxAttempts

/-- Embedding of `OTPData.increment_attempts`. -/
def OTPData.incrementAttempts (d : OTPData) : OTPData :=
  { d with attempts := d.attempts + 1 }

/-- Transaction record (`models.payment.Transaction`). -/
structure Transaction where
  transactionId : String
  mandateId : String
  userId : String
  amount : ℚ
  currency : String := "USD"
  paymentMethodId : String
  status : PaymentStatus
  createdAt : Nat
  processedAt : Option Nat := none
  errorMessage : Option String := none
deriving DecidableEq, Repr

/-- Embedding of `Transaction.mark_completed`. -/
def Transaction.markCompleted (t : Transaction) (now : Nat) : Transaction :=
  { t with status := .completed, processedAt := some now }

/-- Stored payment method (`models.payment.PaymentMethod`). -/
structure PaymentMethod where
  id : String
  type : PaymentMethodType
  lastFour : String
  brand : String
  isDefault : Bool := false
deriving DecidableEq, Repr

/-- Refund request (`models.payment.RefundRequest`). -/
structure RefundRequest where
  refundId : String
  transactionId : String
  amount : ℚ
  reason : String := ""
  status : String := "pending"
  processedAt : Option Nat := none
deriving DecidableEq, Repr

/-- Payment service state (`PaymentService.__init__`): configuration plus the
per-user payment-method map and the OTP / transaction / refund stores. -/
structure PayState where
  maxOtpAttempts : Nat := 3
  otpExpiryMinutes : Nat := 5
  paymentMethods : List (String × List PaymentMethod) := []
  otpStore : List (String × OTPData) := []
  transactions : List (String × Transaction) := []
  refunds : List (String × RefundRequest) := []
deriving Repr

/-- Embedding of `PaymentService.initiate_payment`: validates the inputs, looks the
payment method up among the user's methods, creates a fresh `OTPData` record
(attempts 0, configured max) and stores it under the mandate id, overwriting
any prior record. The freshly generated OTP code is an explicit argument and
is returned in the result (`otp_code`). The optional `amount` argument of the
source is only logged, never stored, so it is omitted here. -/
def initiatePayment (st : PayState) (mandateId paymentMethodId userId : String)
    (now : Nat) (otpCode : String) : Except String (OTPData × PayState) :=
  if mandateId = "" ∨ paymentMethodId = "" ∨ userId = "" then
    .error "Missing required payment parameters"
  else
    let userMethods := (getKey st.paymentMethods userId).getD []
    match userMethods.find? (fun pm => pm.id = paymentMethodId) with
    | none => .error "Invalid payment method"
    | some _ =>
      let otpData : OTPData :=
        { otp := otpCode, userId := userId, mandateId := mandateId,
          paymentMethodId := paymentMethodId,
          expiresAt := now + st.otpExpiryMinutes * 60,
          attempts := 0, maxAttempts := st.maxOtpAttempts, createdAt := now }
      .ok (otpData, { st with otpStore := setKey st.otpStore mandateId otpData })

/-- Embedding of `PaymentService._process_payment`: creates the transaction record with
the hard-coded demo amount `999.99` (the source comment reads
"Demo amount, should come from mandate"), stores it, and marks it completed. -/
def processPayment (st : PayState) (mandateId : String) (otpData : OTPData)
    (now : Nat) (freshTxnId : String) : Transaction × PayState :=
  let txn : Transaction :=
    { transactionId := freshTxnId, mandateId := mandateId, userId := otpData.userId,
      amount := 999.99, currency := "USD",
      paymentMethodId := otpData.paymentMethodId, status := .processing,
      createdAt := now }
  let txn := txn.markCompleted now
  (txn, { st with transactions := setKey st.transactions freshTxnId txn })

/-- Result of `PaymentService.verify_otp`: a raised `OTPError`, the success
dict, or the soft invalid-OTP dict carrying `remaining_attempts`. -/
inductive VerifyResult
  | otpError (message : String)
  | completedResult (mandateId transactionId : String) (amount : ℚ) (currency : String)
      (processedAt : Nat)
  | invalidOtp (remainingAttempts : Nat) (canRetry : Bool)
deriving DecidableEq, Repr

/-- Embedding of `PaymentService.verify_otp`: the per-mandate OTP state machine. Checks,
in order: record existence, user match, expiry (delete on failure), attempt
block (delete on failure); then increments the attempt counter strictly
before comparing codes; on a match deletes the record and processes the
payment; on a mismatch either deletes the record and fails when no attempts
remain, or stores the incremented record and reports `remaining_attempts`. -/
def verifyOtp (st : PayState) (mandateId otpCode userId : String) (now : Nat)
    (freshTxnId : String) : VerifyResult × PayState :=
  match getKey st.otpStore mandateId with
  | none => (.otpError "Invalid mandate or OTP expired", st)
  | some otpData =>
    if otpData.userId ≠ userId then
      (.otpError "Invalid user for this OTP", st)
    else if otpData.isExpired now then
      (.otpError "OTP has expired", { st with otpStore := delKey st.otpStore mandateId })
    else if otpData.isBlocked then
      (.otpError "Too many failed attempts. OTP blocked.",
       { st with otpStore := delKey st.otpStore mandateId })
    else
      let otpData := otpData.incrementAttempts
      if otpData.otp = otpCode then
        let st := { st with otpStore := delKey st.otpStore mandateId }
        let (txn, st) := processPayment st mandateId otpData now freshTxnId
        (.completedResult mandateId txn.transactionId txn.amount txn.currency now, st)
      else
        let remainingAttempts := otpData.maxAttempts - otpData.attempts
        if remainingAttempts = 0 then
          (.otpError "Maximum OTP attempts exceeded",
           { st with otpStore := delKey st.otpStore mandateId })
        else
          (.invalidOtp remainingAttempts true,
           { st with otpStore := setKey st.otpStore mandateId otpData })

/-- Embedding of `PaymentService.process_refund`: fails for an unknown transaction or one
whose status is not `completed`; otherwise records a refund whose amount is
clamped to `min(amount, transaction.amount)`. -/
def processRefund (st : PayState) (transactionId : String) (amount : ℚ)
    (reason : String) (now : Nat) (freshRefundId : String) :
    Except String (RefundRequest × PayState) :=
  match getKey st.transactions transactionId with
  | none => .error "Transaction not found"
  | some txn =>
    if txn.status ≠ PaymentStatus.completed then
      .error "Can only refund completed transactions"
    else
      let refund : RefundRequest :=
        { refundId := freshRefundId, transactionId := transactionId,
          amount := min amount txn.amount, reason := reason,
          status := "completed", processedAt := some now }
      .ok (refund, { st with refunds := setKey st.refunds freshRefundId refund })

/-- Embedding of `PaymentService.cleanup_expired_otps`. -/
def cleanupExpiredOtps (st : PayState) (now : Nat) : Nat × PayState :=
  let expired := (st.otpStore.filter (fun p => p.2.isExpired now)).map (·.1)
  (expired.length, { st with otpStore := st.otpStore.filter (fun p => ¬ p.2.isExpired now) })

/-- Credential status (`models.payment.CredentialStatus`). -/
inductive CredentialStatus
  | active | suspended | expiredStatus
deriving DecidableEq, Repr

/-- Encrypted payment credential (`models.payment.PaymentCredential`). -/
structure PaymentCredential where
  credentialId : String
  userId : String
  type : PaymentMethodType
  lastFour : String
  brand : String
  nickname : Option String := none
  encryptedData : Option String := none
  isDefault : Bool := false
  priority : Nat := 0
  supportedCurrencies : List String := ["USD", "TWD"]
  maxTransactionAmount : Option ℚ := none
  minTransactionAmount : ℚ := 0
  status : CredentialStatus := .active
  expiresAt : Option Nat := none
deriving DecidableEq, Repr

/-- Embedding of `PaymentCredential.is_valid`: active and not past `expires_at`
(a `None` expiry is falsy in the Python guard, so never expires). -/
def PaymentCredential.isValid (c : PaymentCredential) (now : Nat) : Bool :=
  if c.status ≠ CredentialStatus.active then false
  else
    match c.expiresAt with
    | some e => ¬ (now > e)
    | none => true

/-- Embedding of `PaymentCredential.supports_transaction`: validity, currency membership
and amount bounds. The upper-bound guard is `if self.max_transaction_amount
and amount > ...`, so a `None` bound — or a `0.0` bound, which is falsy in
Python — disables the check. -/
def PaymentCredential.supportsTransaction (c : PaymentCredential)
    (amount : ℚ) (currency : String) (now : Nat) : Bool :=
  if ¬ c.isValid now then false
  else if ¬ c.supportedCurrencies.contains currency then false
  else if amount < c.minTransactionAmount then false
  else if (match c.maxTransactionAmount with
           | some mx => mx ≠ 0 && amount > mx
           | none => false) then false
  else true

/-- Single-use payment token.

Modelled from the spec: the `PaymentToken` model (and its `TokenType` enum)
is imported by `services/credential_provider.py` from `models.payment` but is
absent from the sources; its fields and semantics follow spec §3 and §4.2 —
a token binds a credential to one mandate, carries amount/currency/expiry and
a `consumed` flag; `is_valid` is true iff the token is not consumed and not
expired; `consume` sets the consumed flag permanently. -/
structure PaymentToken where
  tokenId : String
  credentialId : String
  userId : String
  mandateId : String
  tokenValue : String
  tokenType : String := "single_use"
  amount : ℚ
  currency : String
  expiresAt : Nat
  consumed : Bool := false
deriving DecidableEq, Repr

/-- Modelled from the spec: `PaymentToken.is_valid` — not consumed and not
expired (spec §4.2: "true iff token exists, not consumed, and not expired"). -/
def PaymentToken.isValid (t : PaymentToken) (now : Nat) : Bool :=
  ¬ t.consumed && ¬ (now > t.expiresAt)

/-- Modelled from the spec: `PaymentToken.consume` marks the token consumed. -/
def PaymentToken.consume (t : PaymentToken) : PaymentToken :=
  { t with consumed := true }

/-- Model of the external Fernet encryption of credential data
(`CredentialProviderService._encrypt`); decryption strips the marker. -/
def fernetEncrypt (s : String) : String := "enc:" ++ s

/-- Model of `CredentialProviderService._decrypt`. -/
def fernetDecrypt (s : String) : String := s.drop 4

/-- Credential provider state (`CredentialProviderService.__init__`):
`_credentials`, `_user_credentials` and `_tokens`. -/
structure CredState where
  credentials : List (String × PaymentCredential) := []
  userCredentials : List (String × List String) := []
  tokens : List (String × PaymentToken) := []
deriving Repr

/-- Embedding of `CredentialProviderService.register_credential`: derives `last_four`
(tail of the card number for cards, a provided display field otherwise),
encrypts the sensitive data, demotes every other default when registering a
new default, assigns `priority = len(user credentials so far)` and stores the
credential. `cardNumber` stands for `credential_data.get("card_number", "")`
and `lastFourData` for `credential_data.get("last_four", "****")`;
`credentialData` is the serialized sensitive dict that gets encrypted. -/
def registerCredential (st : CredState) (userId : String)
    (credentialType : PaymentMethodType) (credentialData : String)
    (cardNumber lastFourData : String) (brand : String) (isDefault : Bool)
    (nickname : Option String) (supportedCurrencies : Option (List String))
    (maxTransactionAmount : Option ℚ) (freshId : String) :
    PaymentCredential × CredState :=
  let lastFour :=
    if credentialType = PaymentMethodType.card then
      if cardNumber.length ≥ 4 then
        (cardNumber.toList.drop (cardNumber.length - 4)).asString
      else "****"
    else lastFourData
  let userCredIds := (getKey st.userCredentials userId).getD []
  let credentials :=
    if isDefault then
      userCredIds.foldl
        (fun cs cid =>
          match getKey cs cid with
          | some c => setKey cs cid { c with isDefault := false }
          | none => cs)
        st.credentials
    else st.credentials
  let credential : PaymentCredential :=
    { credentialId := freshId, userId := userId, type := credentialType,
      lastFour := lastFour, brand := brand, nickname := nickname,
      encryptedData := some (fernetEncrypt credentialData),
      isDefault := isDefault, priority := userCredIds.length,
      supportedCurrencies := supportedCurrencies.getD ["USD", "TWD"],
      maxTransactionAmount := maxTransactionAmount,
      status := .active }
  (credential,
   { st with
     credentials := setKey credentials freshId credential,
     userCredentials := setKey st.userCredentials userId (userCredIds ++ [freshId]) })

/-- Embedding of `CredentialProviderService.get_user_credentials`. -/
def getUserCredentials (st : CredState) (userId : String) : List PaymentCredential :=
  ((getKey st.userCredentials userId).getD []).filterMap
    (fun cid => getKey st.credentials cid)

/-- Embedding of `CredentialProviderService.deactivate_credential`. -/
def deactivateCredential (st : CredState) (credentialId : String) : Bool × CredState :=
  match getKey st.credentials credentialId with
  | none => (false, st)
  | some c =>
    (true, { st with credentials := setKey st.credentials credentialId { c with status := .suspended } })

/-- Eligibility filter of `get_eligible_methods`: `supports_transaction` and,
when the (non-empty, hence truthy) accepted-types list is given, membership
of the credential's type value in it. -/
def eligibleFilter (amount : ℚ) (currency : String)
    (merchantAcceptedTypes : Option (List String)) (now : Nat)
    (c : PaymentCredential) : Bool :=
  c.supportsTransaction amount currency now &&
  (match merchantAcceptedTypes with
   | none => true
   | some ts => if ts = [] then true else ts.contains c.type.value)

/-- Sort relation of `get_eligible_methods`:
`eligible.sort(key=lambda c: (not c.is_default, -c.priority))` — the stable
ascending sort on the key `(not is_default, -priority)`. -/
def credSortLE (c d : PaymentCredential) : Bool :=
  let k1 : Nat := if c.isDefault then 0 else 1
  let k2 : Nat := if d.isDefault then 0 else 1
  k1 < k2 || (k1 = k2 && (-(c.priority : Int)) ≤ (-(d.priority : Int)))

/-- Embedding of `CredentialProviderService.get_eligible_methods`: keeps the user's
credentials passing the eligibility filter, sorted default-first and then by
descending priority (stable sort). -/
def getEligibleMethods (st : CredState) (userId : String) (amount : ℚ)
    (currency : String) (merchantAcceptedTypes : Option (List String))
    (now : Nat) : List PaymentCredential :=
  ((getUserCredentials st userId).filter
    (eligibleFilter amount currency merchantAcceptedTypes now)).mergeSort credSortLE

/-- Embedding of `CredentialProviderService.issue_payment_token`: `None` when the
credential is unknown or fails `supports_transaction`; otherwise stores and
returns a fresh unconsumed single-use token bound to the mandate. -/
def issuePaymentToken (st : CredState) (credentialId mandateId : String)
    (amount : ℚ) (currency : String) (expiresInMinutes : Nat) (now : Nat)
    (freshTokenId tokenValue : String) : Option PaymentToken × CredState :=
  match getKey st.credentials credentialId with
  | none => (none, st)
  | some credential =>
    if ¬ credential.supportsTransaction amount currency now then (none, st)
    else
      let token : PaymentToken :=
        { tokenId := freshTokenId, credentialId := credentialId,
          userId := credential.userId, mandateId := mandateId,
          tokenValue := tokenValue, amount := amount, currency := currency,
          expiresAt := now + expiresInMinutes * 60 }
      (some token, { st with tokens := setKey st.tokens freshTokenId token })

/-- Embedding of `CredentialProviderService.validate_token`: true iff the token exists and
`is_valid` holds. Pure — the state is not changed. -/
def validateToken (st : CredState) (tokenId : String) (now : Nat) : Bool :=
  match getKey st.tokens tokenId with
  | none => false
  | some t => t.isValid now

/-- Payload returned by a successful `consume_token`. -/
structure ConsumedPayload where
  credentialId : String
  typeValue : String
  brand : String
  lastFour : String
  tokenId : String
  mandateId : String
  amount : ℚ
  currency : String
  credentialData : String
deriving DecidableEq, Repr

/-- Embedding of `CredentialProviderService.consume_token`: checks, in order, token
existence, token validity and credential existence, each failure returning
`None` with the state untouched; only after all checks does it mark the token
consumed, decrypt the credential data and return the payload. -/
def consumeToken (st : CredState) (tokenId : String) (now : Nat) :
    Option ConsumedPayload × CredState :=
  match getKey st.tokens tokenId with
  | none => (none, st)
  | some token =>
    if ¬ token.isValid now then (none, st)
    else
      match getKey st.credentials token.credentialId with
      | none => (none, st)
      | some credential =>
        let token := token.consume
        let st := { st with tokens := setKey st.tokens tokenId token }
        (some { credentialId := credential.credentialId,
                typeValue := credential.type.value,
                brand := credential.brand, lastFour := credential.lastFour,
                tokenId := tokenId, mandateId := token.mandateId,
                amount := token.amount, currency := token.currency,
                credentialData := fernetDecrypt (credential.encryptedData.getD "") },
         st)

/-- One credential-provider operation, used to state that a consumed token
stays consumed across every subsequent service call. -/
inductive CredOp
  | registerOp (userId : String) (credentialType : PaymentMethodType)
      (credentialData cardNumber lastFourData brand : String) (isDefault : Bool)
      (nickname : Option String) (supportedCurrencies : Option (List String))
      (maxTransactionAmount : Option ℚ) (freshId : String)
  | deactivateOp (credentialId : String)
  | issueTokenOp (credentialId mandateId : String) (amount : ℚ) (currency : String)
      (expiresInMinutes : Nat) (now : Nat) (freshTokenId tokenValue : String)
  | consumeOp (tokenId : String) (now : Nat)

/-- State effect of one credential-provider operation. -/
def applyCredOp (st : CredState) : CredOp → CredState
  | .registerOp u ct cd cn lf b isd nn sc mx fid =>
    (registerCredential st u ct cd cn lf b isd nn sc mx fid).2
  | .deactivateOp cid => (deactivateCredential st cid).2
  | .issueTokenOp cid mid a cur ttl now ftid tv =>
    (issuePaymentToken st cid mid a cur ttl now ftid tv).2
  | .consumeOp tid now => (consumeToken st tid now).2

/-- Token ids are generated freshly (`tok_<uuid>`): an operation never reuses
an existing token id. -/
def CredOp.freshFor (tokenId : String) : CredOp → Prop
  | .issueTokenOp _ _ _ _ _ _ freshTokenId _ => freshTokenId ≠ tokenId
  | _ => True

/-! Helper lemmas about the association-list store operations. -/

theorem getKey_setKey_self {α : Type} (l : List (String × α)) (k : String) (v : α) :
    getKey (setKey l k v) k = some v := by
  induction l with
  | nil => simp [setKey, getKey]
  | cons p t ih =>
    by_cases h : p.1 = k
    · simp [setKey, getKey, h]
    · simp [setKey, getKey, h, ih]

theorem getKey_setKey_ne {α : Type} (l : List (String × α)) (k k' : String) (v : α)
    (h : k' ≠ k) : getKey (setKey l k v) k' = getKey l k' := by
  induction l with
  | nil => simp [setKey, getKey, Ne.symm h]
  | cons p t ih =>
    by_cases hp : p.1 = k
    · simp [setKey, getKey, hp, h, Ne.symm h]
    · by_cases hp' : p.1 = k'
      · simp [setKey, getKey, hp, hp', h]
      · simp [setKey, getKey, hp, hp', ih]

theorem getKey_delKey_self {α : Type} (l : List (String × α)) (k : String) :
    getKey (delKey l k) k = none := by
  induction l with
  | nil => simp [delKey, getKey]
  | cons p t ih =>
    by_cases h : p.1 = k
    · simpa [delKey, h] using ih
    · simpa [delKey, getKey, h] using ih

theorem getKey_delKey_ne {α : Type} (l : List (String × α)) (k k' : String)
    (h : k' ≠ k) : getKey (delKey l k) k' = getKey l k' := by
  induction l with
  | nil => simp [delKey, getKey]
  | cons p t ih =>
    by_cases hp : p.1 = k
    · simp [delKey, getKey, hp, Ne.symm h, ih]
    · by_cases hp' : p.1 = k'
      · simp [delKey, getKey, hp, hp', h]
      · simp [delKey, getKey, hp, hp', ih]

theorem mem_of_getKey {α : Type} (l : List (String × α)) (k : String) (v : α)
    (h : getKey l k = some v) : (k, v) ∈ l := by
  induction l with
  | nil => simp [getKey] at h
  | cons p t ih =>
    obtain ⟨a, b⟩ := p
    by_cases hp : a = k
    · simp only [getKey, if_pos hp] at h
      have hb : b = v := by simpa using h
      rw [← hp, ← hb]
      exact List.mem_cons_self _ _
    · simp only [getKey, if_neg hp] at h
      exact List.mem_cons_of_mem _ (ih h)

theorem getKey_of_mem_nodup {α : Type} (l : List (String × α)) (k : String) (v : α)
    (hnd : (l.map Prod.fst).Nodup) (h : (k, v) ∈ l) : getKey l k = some v := by
  induction l with
  | nil => simp at h
  | cons p t ih =>
    simp only [List.map_cons, List.nodup_cons] at hnd
    rcases List.mem_cons.mp h with heq | hmem
    · rw [← heq]
      simp [getKey]
    · by_cases hp : p.1 = k
      · exfalso
        exact hnd.1 (hp ▸ List.mem_map.mpr ⟨(k, v), hmem, rfl⟩)
      · simp [getKey, hp]
        exact ih hnd.2 hmem

theorem getKey_filter {α : Type} (l : List (String × α)) (p : String × α → Bool)
    (k : String) (v : α) (hnd : (l.map Prod.fst).Nodup)
    (h : getKey (l.filter p) k = some v) : getKey l k = some v :=
  getKey_of_mem_nodup l k v hnd (List.mem_of_mem_filter (mem_of_getKey _ k v h))

/-- Expiry is monotone in time: a mandate expired now stays expired later. -/
theorem CartMandate.isExpired_mono (m : CartMandate) {n n' : Nat} (h : n ≤ n')
    (hexp : m.isExpired n = true) : m.isExpired n' = true := by
  revert hexp
  cases he : m.expiresAt with
  | none => simp [CartMandate.isExpired, he]
  | some e =>
    simp only [CartMandate.isExpired, he, decide_eq_true_eq]
    omega

/-! Concrete fixtures used by the witness theorems. -/

/-- Witness fixture: a pending mandate expiring at time 100. -/
def mW : CartMandate :=
  { mandateId := "mandate_w", userId := "u1",
    items := [{ productId := "prod_widget", name := "Widget", price := 10,
                quantity := 1, subtotal := 10 }],
    totalAmount := 10, currency := "USD", createdAt := 0, expiresAt := some 100,
    status := .pending }

/-- Witness fixture: a merchant-signed mandate. -/
def mSigned : CartMandate :=
  { mW with mandateId := "mandate_s", merchantSignature := some "msig",
            merchantSignedAt := some 5 }

/-- Witness fixture: mandate store holding both fixtures. -/
def msW : MandateState :=
  { activeMandates := [("mandate_w", mW), ("mandate_s", mSigned)] }

/-- C5: `is_mandate_valid` returns false for an unknown id; for a stored
mandate past its expiry it returns false, flips the stored status to
`expired`, and keeps returning false at every later time; for a stored
unexpired mandate it leaves the state unchanged and returns true iff the
status is `pending` or `pending_otp`. -/
theorem C5_is_mandate_valid (st : MandateState) (mandateId : String) (now : Nat) :
    (getKey st.activeMandates mandateId = none →
      isMandateValid st mandateId now = (false, st)) ∧
    (∀ m, getKey st.activeMandates mandateId = some m →
      m.isExpired now = true →
      (isMandateValid st mandateId now).1 = false ∧
      getKey (isMandateValid st mandateId now).2.activeMandates mandateId =
        some { m with status := PaymentStatus.expired } ∧
      (∀ now', now ≤ now' →
        (isMandateValid (isMandateValid st mandateId now).2 mandateId now').1 = false)) ∧
    (∀ m, getKey st.activeMandates mandateId = some m →
      m.isExpired now = false →
      ((isMandateValid st mandateId now).1 = true ↔
        (m.status = PaymentStatus.pending ∨ m.status = PaymentStatus.pendingOtp)) ∧
      (isMandateValid st mandateId now).2 = st) := by
  refine ⟨?_, ?_, ?_⟩
  · intro h
    simp [isMandateValid, h]
  · intro m hm hexp
    have hval : isMandateValid st mandateId now =
        (false,
          { st with activeMandates := setKey st.activeMandates mandateId ({ m with status := PaymentStatus.expired }) }) := by
      simp [isMandateValid, hm, hexp, updateMandateStatus]
    refine ⟨by rw [hval], by rw [hval]; exact getKey_setKey_self _ _ _, ?_⟩
    intro now' hle
    have hexp' : ({ m with status := PaymentStatus.expired } : CartMandate).isExpired now' = true := by
      have heq : ({ m with status := PaymentStatus.expired } : CartMandate).isExpired now =
          m.isExpired now := by
        simp [CartMandate.isExpired]
      exact CartMandate.isExpired_mono _ hle (heq ▸ hexp)
    rw [hval]
    simp [isMandateValid, getKey_setKey_self, hexp']
  · intro m hm hexp
    constructor
    · simp [isMandateValid, hm, hexp]
    · simp [isMandateValid, hm, hexp]

/-- Witness for C5: the fixture mandate, checked at time 5000 (past its
expiry 100), yields false and is marked expired; it stays false at 6000. -/
theorem C5_witness :
    (isMandateValid msW "mandate_w" 5000).1 = false ∧
    getKey (isMandateValid msW "mandate_w" 5000).2.activeMandates "mandate_w" =
      some { mW with status := PaymentStatus.expired } ∧
    (isMandateValid (isMandateValid msW "mandate_w" 5000).2 "mandate_w" 6000).1 = false := by
  have h := (C5_is_mandate_valid msW "mandate_w" 5000).2.1 mW (by decide) (by decide)
  exact ⟨h.1, h.2.1, h.2.2 6000 (by decide)⟩

/-- C6: `user_sign_mandate` on a stored mandate fails when the mandate has no
merchant signature yet, and fails when the caller differs from the mandate's
user; otherwise it succeeds, setting `payer_info` and a `user_signature` that
is the keyed hash of a payload embedding the merchant signature. -/
theorem C6_user_sign_mandate (st : MandateState) (mandateId userId : String)
    (timestamp : Nat) (nonce : String) (m : CartMandate)
    (hm : getKey st.activeMandates mandateId = some m) :
    (m.isMerchantSigned = false →
      userSignMandate st mandateId userId timestamp nonce =
        .error "Mandate must be merchant-signed before user signing") ∧
    (m.isMerchantSigned = true → m.userId ≠ userId →
      userSignMandate st mandateId userId timestamp nonce = .error "User ID mismatch") ∧
    (∀ msig, m.merchantSignature = some msig → m.userId = userId →
      userSignMandate st mandateId userId timestamp nonce =
        .ok (userSignSuccess st.secretKey m userId timestamp nonce,
          { st with activeMandates := setKey st.activeMandates mandateId (userSignSuccess st.secretKey m userId timestamp nonce) }) ∧
      (userSignSuccess st.secretKey m userId timestamp nonce).userSignature =
        some (hmacSha256 st.secretKey (encodePayload
          (userSignPayload ({ m with payerInfo := some { userId := userId, verified := true } })
            userId timestamp nonce))) ∧
      ("merchant_signature", msig) ∈
        userSignPayload ({ m with payerInfo := some { userId := userId, verified := true } })
          userId timestamp nonce ∧
      (userSignSuccess st.secretKey m userId timestamp nonce).payerInfo =
        some { userId := userId, verified := true }) := by
  refine ⟨?_, ?_, ?_⟩
  · intro h
    simp [userSignMandate, hm, h]
  · intro h hne
    simp [userSignMandate, hm, h, hne]
  · intro msig hsig huser
    have hms : m.isMerchantSigned = true := by
      simp [CartMandate.isMerchantSigned, hsig]
    refine ⟨?_, rfl, ?_, rfl⟩
    · simp [userSignMandate, hm, hms, huser]
    · simp [userSignPayload, hsig]

/-- Witness for C6: on the fixture store, signing the unsigned mandate fails,
signing the merchant-signed one as the wrong user fails, and signing it as
its user succeeds with the chained signature set. -/
theorem C6_witness :
    userSignMandate msW "mandate_w" "u1" 7 "n1" =
      .error "Mandate must be merchant-signed before user signing" ∧
    userSignMandate msW "mandate_s" "u2" 7 "n1" = .error "User ID mismatch" ∧
    (userSignSuccess msW.secretKey mSigned "u1" 7 "n1").userSignature =
      some (hmacSha256 msW.secretKey (encodePayload
        (userSignPayload ({ mSigned with payerInfo := some { userId := "u1", verified := true } })
          "u1" 7 "n1"))) ∧
    ("merchant_signature", "msig") ∈
      userSignPayload ({ mSigned with payerInfo := some { userId := "u1", verified := true } })
        "u1" 7 "n1" := by
  refine ⟨?_, ?_, ?_, ?_⟩
  · exact (C6_user_sign_mandate msW "mandate_w" "u1" 7 "n1" mW (by decide)).1 (by decide)
  · exact (C6_user_sign_mandate msW "mandate_s" "u2" 7 "n1" mSigned (by decide)).2.1
      (by decide) (by decide)
  · exact ((C6_user_sign_mandate msW "mandate_s" "u1" 7 "n1" mSigned (by decide)).2.2
      "msig" (by decide) (by decide)).2.1
  · exact ((C6_user_sign_mandate msW "mandate_s" "u1" 7 "n1" mSigned (by decide)).2.2
      "msig" (by decide) (by decide)).2.2.1

/-- C8: `process_refund` fails for an unknown transaction id and for a
transaction whose status is not `completed`; for a completed transaction it
always succeeds — even when the requested amount exceeds the transaction
amount — and the recorded and returned refund amount is the minimum of the
requested amount and the transaction amount. -/
theorem C8_process_refund (st : PayState) (transactionId : String) (amount : ℚ)
    (reason : String) (now : Nat) (freshRefundId : String) :
    (getKey st.transactions transactionId = none →
      processRefund st transactionId amount reason now freshRefundId =
        .error "Transaction not found") ∧
    (∀ txn, getKey st.transactions transactionId = some txn →
      txn.status ≠ PaymentStatus.completed →
      processRefund st transactionId amount reason now freshRefundId =
        .error "Can only refund completed transactions") ∧
    (∀ txn, getKey st.transactions transactionId = some txn →
      txn.status = PaymentStatus.completed →
      ∃ st', processRefund st transactionId amount reason now freshRefundId =
          .ok ({ refundId := freshRefundId, transactionId := transactionId,
                 amount := min amount txn.amount, reason := reason,
                 status := "completed", processedAt := some now }, st') ∧
        getKey st'.refunds freshRefundId =
          some { refundId := freshRefundId, transactionId := transactionId,
                 amount := min amount txn.amount, reason := reason,
                 status := "completed", processedAt := some now }) := by
  refine ⟨?_, ?_, ?_⟩
  · intro h
    simp [processRefund, h]
  · intro txn htxn hne
    simp [processRefund, htxn, hne]
  · intro txn htxn hc
    refine ⟨{ st with refunds := setKey st.refunds freshRefundId ({ refundId := freshRefundId, transactionId := transactionId, amount := min amount txn.amount, reason := reason, status := "completed", processedAt := some now }) }, ?_, getKey_setKey_self _ _ _⟩
    simp [processRefund, htxn, hc]

/-- Witness fixture: a payment-service state holding one completed
transaction of amount 100. -/
def psRefundW : PayState :=
  { transactions := [("txn_1",
      { transactionId := "txn_1", mandateId := "mandate_w", userId := "u1",
        amount := 100, currency := "USD", paymentMethodId := "card_001",
        status := .completed, createdAt := 0, processedAt := some 1 })] }

/-- Witness for C8: requesting a 200 refund of a 100 transaction succeeds
with the amount clamped to 100; an unknown transaction fails. -/
theorem C8_witness :
    (∃ st', processRefund psRefundW "txn_1" 200 "demo" 5 "rfnd_1" =
        .ok ({ refundId := "rfnd_1", transactionId := "txn_1", amount := 100,
               reason := "demo", status := "completed", processedAt := some 5 }, st')) ∧
    processRefund psRefundW "txn_missing" 200 "demo" 5 "rfnd_1" =
      .error "Transaction not found" := by
  constructor
  · obtain ⟨st', heq, _⟩ :=
      (C8_process_refund psRefundW "txn_1" 200 "demo" 5 "rfnd_1").2.2
        { transactionId := "txn_1", mandateId := "mandate_w", userId := "u1",
          amount := 100, currency := "USD", paymentMethodId := "card_001",
          status := .completed, createdAt := 0, processedAt := some 1 }
        (by decide) (by decide)
    refine ⟨st', ?_⟩
    rw [heq]
    norm_num
  · exact (C8_process_refund psRefundW "txn_missing" 200 "demo" 5 "rfnd_1").1 (by decide)

/-- Success value of `mkCartItem` for an input passing the quantity bound. -/
def cartItemOf (d : ItemData) : CartItem :=
  { productId := d.productId, name := d.name, price := d.price,
    quantity := d.quantity.getD 1, subtotal := d.price * ((d.quantity.getD 1 : Int) : ℚ) }

theorem buildCartItems_ok (items : List ItemData)
    (h : ∀ i ∈ items, 1 ≤ i.quantity.getD 1) :
    buildCartItems items = .ok (items.map cartItemOf) := by
  induction items with
  | nil => rfl
  | cons a t ih =>
    have ha : ¬ (a.quantity.getD 1 < 1) := not_lt.mpr (h a (List.mem_cons_self a t))
    have ht := ih (fun i hi => h i (List.mem_cons_of_mem a hi))
    simp [buildCartItems, mkCartItem, ha, ht, cartItemOf]

theorem buildCartItems_error (items : List ItemData)
    (h : ∃ i ∈ items, i.quantity.getD 1 < 1) :
    ∃ e, buildCartItems items = .error e := by
  induction items with
  | nil => simp at h
  | cons a t ih =>
    by_cases ha : a.quantity.getD 1 < 1
    · exact ⟨"ValidationError: quantity must be greater than or equal to 1",
        by simp [buildCartItems, mkCartItem, ha]⟩
    · have ht : ∃ i ∈ t, i.quantity.getD 1 < 1 := by
        rcases h with ⟨i, hi, hlt⟩
        rcases List.mem_cons.mp hi with heq | hmem
        · exact absurd (heq ▸ hlt) ha
        · exact ⟨i, hmem, hlt⟩
      obtain ⟨e, he⟩ := ih ht
      refine ⟨e, ?_⟩
      simp [buildCartItems, mkCartItem, ha, he]

/-- C2 counterexample: `create_cart_mandate` does not fail on an empty items
list — it succeeds with a total of 0 — and it also accepts a negative item
price, so the claimed `ValidationError` on empty input and the claimed
non-negative-price validation both fail on the code. -/
theorem C2_counterexample :
    (∃ res, createCartMandate ({} : MandateState) "u1" [] "USD" 30 1000 "mandate_e" = .ok res ∧
       res.1.totalAmount = 0 ∧ res.1.status = PaymentStatus.pending) ∧
    (∃ res, createCartMandate ({} : MandateState) "u1"
        [{ productId := "p1", name := "Neg", price := -5, quantity := some 2 }]
        "USD" 30 1000 "mandate_n" = .ok res ∧ res.1.totalAmount = -10) := by
  refine ⟨⟨_, rfl, by norm_num [createCartMandate, buildCartItems, mkCartItem], by decide⟩,
    ⟨_, rfl, by norm_num [createCartMandate, buildCartItems, mkCartItem]⟩⟩

/-- C2, amended: `create_cart_mandate` performs no empty-items check (an
empty list yields a mandate with total 0) and no price validation; it fails
(with the pydantic `ValidationError`) exactly when some item's quantity is
below 1; on success it computes the total as the sum of the item subtotals
(`price × quantity`), sets status `pending` and stores the mandate under the
given fresh id, leaving every other key of the store unchanged. -/
theorem C2_create_cart_mandate (st : MandateState) (userId currency : String)
    (items : List ItemData) (ttl now : Nat) (freshId : String) :
    ((∀ i ∈ items, 1 ≤ i.quantity.getD 1) →
      ∃ m st', createCartMandate st userId items currency ttl now freshId = .ok (m, st') ∧
        m.items = items.map cartItemOf ∧
        m.totalAmount = ((items.map cartItemOf).map (·.subtotal)).sum ∧
        m.status = PaymentStatus.pending ∧
        m.mandateId = freshId ∧
        m.userId = userId ∧
        getKey st'.activeMandates freshId = some m ∧
        (∀ k, k ≠ freshId → getKey st'.activeMandates k = getKey st.activeMandates k)) ∧
    ((∃ i ∈ items, i.quantity.getD 1 < 1) →
      ∃ e, createCartMandate st userId items currency ttl now freshId = .error e) := by
  constructor
  · intro h
    have hb := buildCartItems_ok items h
    unfold createCartMandate
    rw [hb]
    exact ⟨_, _, rfl, rfl, rfl, rfl, rfl, rfl, getKey_setKey_self _ _ _,
      fun k hk => getKey_setKey_ne _ _ _ _ hk⟩
  · intro h
    obtain ⟨e, he⟩ := buildCartItems_error items h
    exact ⟨e, by simp [createCartMandate, he]⟩

/-- Witness for C2: a one-item cart at price 10, quantity 2 succeeds with
total 20 stored under the fresh id; a zero-quantity item is rejected. -/
theorem C2_witness :
    (∃ m st', createCartMandate ({} : MandateState) "u1"
        [{ productId := "p1", name := "Widget", price := 10, quantity := some 2 }]
        "USD" 30 1000 "mandate_q" = .ok (m, st') ∧
      m.totalAmount = 20 ∧ m.status = PaymentStatus.pending ∧
      getKey st'.activeMandates "mandate_q" = some m) ∧
    (∃ e, createCartMandate ({} : MandateState) "u1"
        [{ productId := "p1", name := "Widget", price := 10, quantity := some 0 }]
        "USD" 30 1000 "mandate_z" = .error e) := by
  constructor
  · obtain ⟨m, st', heq, hitems, htot, hstat, _, _, hget, _⟩ :=
      (C2_create_cart_mandate ({} : MandateState) "u1" "USD"
        [{ productId := "p1", name := "Widget", price := 10, quantity := some 2 }]
        30 1000 "mandate_q").1 (by decide)
    refine ⟨m, st', heq, ?_, hstat, hget⟩
    rw [htot]
    norm_num [cartItemOf]
  · exact (C2_create_cart_mandate ({} : MandateState) "u1" "USD"
      [{ productId := "p1", name := "Widget", price := 10, quantity := some 0 }]
      30 1000 "mandate_z").2 ⟨_, List.mem_singleton_self _, by decide⟩

/-- Witness fixture: payment-service state for the end-to-end scenario, with
the demo Visa card registered for user `u1`. -/
def psC1 : PayState :=
  { paymentMethods := [("u1",
      [{ id := "card_001", type := .card, lastFour := "1234", brand := "Visa",
         isDefault := true }])] }

/-- Default used only to totalize the extraction of an `Except` success. -/
def exceptOkD {ε α : Type} (d : α) : Except ε α → α
  | .ok a => a
  | .error _ => d

/-- Placeholder mandate for the extraction default. -/
def dummyCartMandate : CartMandate :=
  { mandateId := "", userId := "", items := [], totalAmount := 0, currency := "",
    createdAt := 0, status := .pending }

/-- Placeholder OTP record for the extraction default. -/
def dummyOtpData : OTPData :=
  { otp := "", userId := "", mandateId := "", paymentMethodId := "", expiresAt := 0,
    createdAt := 0 }

/-- Literal scenario input: 1 × "Widget" at 10.00 USD. -/
def c1Items : List ItemData :=
  [{ productId := "prod_widget", name := "Widget", price := 10, quantity := some 1 }]

/-- Scenario step 1: create the cart mandate. -/
def c1P0 : CartMandate × MandateState :=
  exceptOkD (dummyCartMandate, {})
    (createCartMandate ({} : MandateState) "u1" c1Items "USD" 30 1000 "mandate_abc")

/-- Scenario step 2: merchant-sign it. -/
def c1P1 : CartMandate × MandateState :=
  merchantSignMandate c1P0.2 c1P0.1 "merchant_001" "Demo Store" 1001 "n1"

/-- Scenario step 3: user-sign it. -/
def c1P2 : CartMandate × MandateState :=
  exceptOkD (dummyCartMandate, {}) (userSignMandate c1P1.2 "mandate_abc" "u1" 1002 "n2")

/-- Scenario step 4: initiate payment, generating OTP code "123456". -/
def c1P3 : OTPData × PayState :=
  exceptOkD (dummyOtpData, psC1) (initiatePayment psC1 "mandate_abc" "card_001" "u1" 1003 "123456")

/-- Scenario step 5: verify with the exact returned code. -/
def c1Verify : VerifyResult × PayState :=
  verifyOtp c1P3.2 "mandate_abc" "123456" "u1" 1010 "txn_xyz"

/-- C1, evaluated at the failing input: the literal end-to-end scenario —
a mandate for 1 × "Widget" at 10.00 USD (total 10.00), merchant-signed and
user-signed, then `initiate_payment` and `verify_otp` with the returned
code — reaches the completed result, but the transaction amount is the
hard-coded `999.99` of `_process_payment` (whose source comment reads
"Demo amount, should come from mandate"), not the mandate total 10.00.
The transaction id is distinct from the mandate id. -/
theorem C1_code_bug_eval :
    createCartMandate ({} : MandateState) "u1" c1Items "USD" 30 1000 "mandate_abc" = .ok c1P0 ∧
    c1P0.1.totalAmount = 10 ∧
    c1P1.1.isMerchantSigned = true ∧
    userSignMandate c1P1.2 "mandate_abc" "u1" 1002 "n2" = .ok c1P2 ∧
    c1P2.1.isUserSigned = true ∧
    initiatePayment psC1 "mandate_abc" "card_001" "u1" 1003 "123456" = .ok c1P3 ∧
    c1P3.1.otp = "123456" ∧
    c1Verify.1 = .completedResult "mandate_abc" "txn_xyz" (999.99 : ℚ) "USD" 1010 ∧
    (999.99 : ℚ) ≠ c1P0.1.totalAmount ∧
    "txn_xyz" ≠ "mandate_abc" := by
  refine ⟨rfl, ?_, rfl, rfl, rfl, rfl, rfl, rfl, ?_, by decide⟩
  · show (10 : ℚ) * ((1 : Int) : ℚ) + 0 = 10
    norm_num
  · show (999.99 : ℚ) ≠ (10 : ℚ) * ((1 : Int) : ℚ) + 0
    norm_num

/-- One counted mismatching `verify_otp` call: the record exists, the user
matches, the record is neither expired nor blocked, and the code differs.
The attempt counter is incremented strictly before the comparison, so the
outcome is decided by `max_attempts - (attempts + 1)`: zero remaining blocks
and deletes, otherwise the incremented record is stored and
`remaining_attempts` reported. -/
theorem verifyOtp_mismatch (st : PayState) (mandateId w u : String) (n : Nat)
    (t : String) (e : OTPData)
    (he : getKey st.otpStore mandateId = some e) (hu : e.userId = u)
    (hexp : e.isExpired n = false) (hblock : e.isBlocked = false)
    (hw : e.otp ≠ w) :
    verifyOtp st mandateId w u n t =
      (if e.maxAttempts - (e.attempts + 1) = 0 then
        (.otpError "Maximum OTP attempts exceeded",
         { st with otpStore := delKey st.otpStore mandateId })
      else
        (.invalidOtp (e.maxAttempts - (e.attempts + 1)) true,
         { st with otpStore := setKey st.otpStore mandateId ({ e with attempts := e.attempts + 1 }) })) := by
  simp only [verifyOtp, he, hu, hexp, hblock, OTPData.incrementAttempts]
  simp [hw]

/-- C3: with `max_attempts = 3` and a fresh OTP record, three consecutive
wrong codes return `remaining_attempts` 2 then 1 (the record staying in
place with the incremented counter), then block with the record deleted, and
a fourth call with the correct code fails on the not-found branch; the
counter is incremented strictly before the comparison on every counted call
(the general mismatch shape is the last conjunct). -/
theorem C3_otp_retry_bound (st0 : PayState) (mandateId u w1 w2 w3 : String)
    (d : OTPData) (n1 n2 n3 n4 : Nat) (t1 t2 t3 t4 : String)
    (hd : getKey st0.otpStore mandateId = some d)
    (hu : d.userId = u) (ha : d.attempts = 0) (hmax : d.maxAttempts = 3)
    (he1 : n1 ≤ d.expiresAt) (he2 : n2 ≤ d.expiresAt) (he3 : n3 ≤ d.expiresAt)
    (hw1 : d.otp ≠ w1) (hw2 : d.otp ≠ w2) (hw3 : d.otp ≠ w3) :
    verifyOtp st0 mandateId w1 u n1 t1 =
      (.invalidOtp 2 true,
       { st0 with otpStore := setKey st0.otpStore mandateId ({ d with attempts := 1 }) }) ∧
    verifyOtp { st0 with otpStore := setKey st0.otpStore mandateId ({ d with attempts := 1 }) }
        mandateId w2 u n2 t2 =
      (.invalidOtp 1 true,
       { st0 with otpStore := setKey (setKey st0.otpStore mandateId ({ d with attempts := 1 })) mandateId ({ d with attempts := 2 }) }) ∧
    verifyOtp { st0 with otpStore := setKey (setKey st0.otpStore mandateId ({ d with attempts := 1 })) mandateId ({ d with attempts := 2 }) }
        mandateId w3 u n3 t3 =
      (.otpError "Maximum OTP attempts exceeded",
       { st0 with otpStore := delKey (setKey (setKey st0.otpStore mandateId ({ d with attempts := 1 })) mandateId ({ d with attempts := 2 })) mandateId }) ∧
    getKey (delKey (setKey (setKey st0.otpStore mandateId ({ d with attempts := 1 })) mandateId ({ d with attempts := 2 })) mandateId) mandateId = none ∧
    (verifyOtp { st0 with otpStore := delKey (setKey (setKey st0.otpStore mandateId ({ d with attempts := 1 })) mandateId ({ d with attempts := 2 })) mandateId }
        mandateId d.otp u n4 t4).1 = .otpError "Invalid mandate or OTP expired" ∧
    (∀ st e w n t, getKey st.otpStore mandateId = some e → e.userId = u →
      e.isExpired n = false → e.isBlocked = false → e.otp ≠ w →
      verifyOtp st mandateId w u n t =
        (if e.maxAttempts - (e.attempts + 1) = 0 then
          (.otpError "Maximum OTP attempts exceeded",
           { st with otpStore := delKey st.otpStore mandateId })
        else
          (.invalidOtp (e.maxAttempts - (e.attempts + 1)) true,
           { st with otpStore := setKey st.otpStore mandateId ({ e with attempts := e.attempts + 1 }) }))) := by
  have hne1 : d.isExpired n1 = false := by
    simp only [OTPData.isExpired, decide_eq_false_iff_not, not_lt]
    omega
  have hnb : d.isBlocked = false := by
    simp only [OTPData.isBlocked, ha, hmax, decide_eq_false_iff_not]
    omega
  have hd1 : getKey (setKey st0.otpStore mandateId ({ d with attempts := 1 })) mandateId =
      some ({ d with attempts := 1 }) := getKey_setKey_self _ _ _
  have hne2 : ({ d with attempts := 1 } : OTPData).isExpired n2 = false := by
    simp only [OTPData.isExpired, decide_eq_false_iff_not, not_lt]
    omega
  have hnb1 : ({ d with attempts := 1 } : OTPData).isBlocked = false := by
    simp only [OTPData.isBlocked, hmax, decide_eq_false_iff_not]
    omega
  have hd2 : getKey (setKey (setKey st0.otpStore mandateId ({ d with attempts := 1 })) mandateId ({ d with attempts := 2 })) mandateId =
      some ({ d with attempts := 2 }) := getKey_setKey_self _ _ _
  have hne3 : ({ d with attempts := 2 } : OTPData).isExpired n3 = false := by
    simp only [OTPData.isExpired, decide_eq_false_iff_not, not_lt]
    omega
  have hnb2 : ({ d with attempts := 2 } : OTPData).isBlocked = false := by
    simp only [OTPData.isBlocked, hmax, decide_eq_false_iff_not]
    omega
  have hdel : getKey (delKey (setKey (setKey st0.otpStore mandateId ({ d with attempts := 1 })) mandateId ({ d with attempts := 2 })) mandateId) mandateId = none :=
    getKey_delKey_self _ _
  refine ⟨?_, ?_, ?_, hdel, ?_, ?_⟩
  · rw [verifyOtp_mismatch st0 mandateId w1 u n1 t1 d hd hu hne1 hnb hw1]
    simp [ha, hmax]
  · rw [verifyOtp_mismatch _ mandateId w2 u n2 t2 ({ d with attempts := 1 }) hd1 hu hne2 hnb1 hw2]
    simp [hmax]
  · rw [verifyOtp_mismatch _ mandateId w3 u n3 t3 ({ d with attempts := 2 }) hd2 hu hne3 hnb2 hw3]
    simp [hmax]
  · simp [verifyOtp, hdel]
  · intro st e w n t he hu' hexp hblock hw
    exact verifyOtp_mismatch st mandateId w u n t e he hu' hexp hblock hw

/-- Witness fixture: a fresh OTP record (code 123456, 3 attempts allowed)
stored for mandate `mandate_o`. -/
def otpW : OTPData :=
  { otp := "123456", userId := "u1", mandateId := "mandate_o",
    paymentMethodId := "card_001", expiresAt := 1300, attempts := 0,
    maxAttempts := 3, createdAt := 1000 }

/-- Witness fixture: payment state holding the fresh OTP record. -/
def psOtpW : PayState := { otpStore := [("mandate_o", otpW)] }

/-- Witness for C3: three wrong codes at times 1010/1020/1030, then the
correct code at 1040, on the concrete fixture. -/
theorem C3_witness :
    (verifyOtp psOtpW "mandate_o" "000000" "u1" 1010 "t1").1 = .invalidOtp 2 true ∧
    (verifyOtp psOtpW "mandate_o" "000000" "u1" 1010 "t1" |>.2 |> (verifyOtp · "mandate_o" "111111" "u1" 1020 "t2")).1 = .invalidOtp 1 true := by
  have h := C3_otp_retry_bound psOtpW "mandate_o" "u1" "000000" "111111" "222222"
    otpW 1010 1020 1030 1040 "t1" "t2" "t3" "t4"
    (by decide) (by decide) (by decide) (by decide)
    (by decide) (by decide) (by decide) (by decide) (by decide) (by decide)
  constructor
  · rw [h.1]
  · rw [h.1]
    simp only []
    rw [h.2.1]

/-- Creation: the new mandate's total is the sum of its item subtotals, and
(for a fresh id) every previously stored mandate keeps its total. -/
theorem createCartMandate_total (st : MandateState) (userId currency : String)
    (items : List ItemData) (ttl now : Nat) (freshId : String)
    (m : CartMandate) (st' : MandateState)
    (hfresh : getKey st.activeMandates freshId = none)
    (hcreate : createCartMandate st userId items currency ttl now freshId = .ok (m, st')) :
    m.totalAmount = (m.items.map (·.subtotal)).sum ∧
    (∀ k m0 m1, getKey st.activeMandates k = some m0 →
      getKey st'.activeMandates k = some m1 → m1.totalAmount = m0.totalAmount) := by
  unfold createCartMandate at hcreate
  cases hb : buildCartItems items with
  | error e =>
    rw [hb] at hcreate
    simp at hcreate
  | ok cartItems =>
    rw [hb] at hcreate
    simp only [Except.ok.injEq, Prod.mk.injEq] at hcreate
    obtain ⟨hm, hst⟩ := hcreate
    constructor
    · rw [← hm]
    · intro k m0 m1 h0 h1
      rw [← hst] at h1
      by_cases hk : k = freshId
      · rw [hk, hfresh] at h0
        cases h0
      · rw [getKey_setKey_ne _ _ _ _ hk] at h1
        rw [h0] at h1
        cases h1
        rfl

/-- Merchant signing: the signed mandate keeps the input mandate's total and
no other stored key changes. -/
theorem merchantSignMandate_total (st : MandateState) (m : CartMandate)
    (merchantId merchantName : String) (ts : Nat) (nonce : String) :
    (merchantSignMandate st m merchantId merchantName ts nonce).1.totalAmount = m.totalAmount ∧
    (∀ k, k ≠ m.mandateId →
      getKey (merchantSignMandate st m merchantId merchantName ts nonce).2.activeMandates k =
        getKey st.activeMandates k) := by
  constructor
  · rfl
  · intro k hk
    exact getKey_setKey_ne _ _ _ _ hk

/-- User signing: on success every stored mandate keeps its total. -/
theorem userSignMandate_total (st : MandateState) (mandateId userId : String)
    (ts : Nat) (nonce : String) (m2 : CartMandate) (st' : MandateState)
    (h : userSignMandate st mandateId userId ts nonce = .ok (m2, st')) :
    ∀ k m0 m1, getKey st.activeMandates k = some m0 →
      getKey st'.activeMandates k = some m1 → m1.totalAmount = m0.totalAmount := by
  unfold userSignMandate at h
  cases hg : getKey st.activeMandates mandateId with
  | none => rw [hg] at h; simp at h
  | some mandate =>
    rw [hg] at h
    by_cases hms : mandate.isMerchantSigned
    · by_cases hus : mandate.userId ≠ userId
      · simp [hms, hus] at h
      · simp only [hms, hus, Bool.not_true, Bool.false_eq_true,
          not_false_eq_true, if_true, ite_true, if_false, ite_false,
          Except.ok.injEq, Prod.mk.injEq] at h
        obtain ⟨rfl, rfl⟩ := h
        intro k m0 m1 h0 h1
        by_cases hk : k = mandateId
        · subst hk
          simp only [getKey_setKey_self, Option.some.injEq] at h1
          rw [hg] at h0
          cases h0
          rw [← h1]
          rfl
        · simp only [getKey_setKey_ne _ _ _ _ hk] at h1
          rw [h0] at h1
          cases h1
          rfl
    · simp [hms] at h

/-- Status update: every stored mandate keeps its total. -/
theorem updateMandateStatus_total (st : MandateState) (mandateId : String)
    (status : PaymentStatus) :
    ∀ k m0 m1, getKey st.activeMandates k = some m0 →
      getKey (updateMandateStatus st mandateId status).2.activeMandates k = some m1 →
      m1.totalAmount = m0.totalAmount := by
  intro k m0 m1 h0 h1
  unfold updateMandateStatus at h1
  cases hg : getKey st.activeMandates mandateId with
  | none =>
    rw [hg] at h1
    simp only at h1
    rw [h0] at h1
    cases h1
    rfl
  | some m =>
    rw [hg] at h1
    simp only at h1
    by_cases hk : k = mandateId
    · subst hk
      rw [getKey_setKey_self] at h1
      rw [hg] at h0
      cases h0
      cases h1
      rfl
    · rw [getKey_setKey_ne _ _ _ _ hk] at h1
      rw [h0] at h1
      cases h1
      rfl

/-- Lazy expiry check: every stored mandate keeps its total. -/
theorem isMandateValid_total (st : MandateState) (mandateId : String) (now : Nat) :
    ∀ k m0 m1, getKey st.activeMandates k = some m0 →
      getKey (isMandateValid st mandateId now).2.activeMandates k = some m1 →
      m1.totalAmount = m0.totalAmount := by
  intro k m0 m1 h0 h1
  unfold isMandateValid at h1
  cases hg : getKey st.activeMandates mandateId with
  | none =>
    rw [hg] at h1
    simp only at h1
    rw [h0] at h1
    cases h1
    rfl
  | some m =>
    rw [hg] at h1
    by_cases hexp : m.isExpired now
    · simp only [hexp, if_true, ite_true] at h1
      exact updateMandateStatus_total st mandateId .expired k m0 m1 h0 h1
    · simp only [hexp, if_false, ite_false, Bool.false_eq_true] at h1
      rw [h0] at h1
      cases h1
      rfl

/-- Cleanup sweep (store keys assumed distinct, as in a Python dict): every
surviving mandate is exactly the stored one, total included. -/
theorem cleanupExpiredMandates_total (st : MandateState) (now : Nat)
    (hnd : (st.activeMandates.map Prod.fst).Nodup) :
    ∀ k m1, getKey (cleanupExpiredMandates st now).2.activeMandates k = some m1 →
      getKey st.activeMandates k = some m1 := by
  intro k m1 h1
  exact getKey_filter _ _ _ _ hnd h1

/-- C7: the total of a mandate equals the sum of its item subtotals at
creation, and none of the mandate-store operations — merchant signing, user
signing, status update, lazy-expiry validation, cleanup — changes the stored
total of any mandate. (The payment service holds no reference to the mandate
store: `PayState` carries only payment methods, OTPs, transactions and
refunds, so payment operations cannot touch a mandate at all.) -/
theorem C7_total_amount_invariant :
    (∀ st userId currency items ttl now freshId m st',
      getKey st.activeMandates freshId = none →
      createCartMandate st userId items currency ttl now freshId = .ok (m, st') →
      m.totalAmount = (m.items.map (·.subtotal)).sum ∧
      (∀ k m0 m1, getKey st.activeMandates k = some m0 →
        getKey st'.activeMandates k = some m1 → m1.totalAmount = m0.totalAmount)) ∧
    (∀ st m merchantId merchantName ts nonce,
      (merchantSignMandate st m merchantId merchantName ts nonce).1.totalAmount = m.totalAmount ∧
      getKey (merchantSignMandate st m merchantId merchantName ts nonce).2.activeMandates m.mandateId =
        some (merchantSignMandate st m merchantId merchantName ts nonce).1 ∧
      (∀ k, k ≠ m.mandateId →
        getKey (merchantSignMandate st m merchantId merchantName ts nonce).2.activeMandates k =
          getKey st.activeMandates k)) ∧
    (∀ st mandateId userId ts nonce m2 st',
      userSignMandate st mandateId userId ts nonce = .ok (m2, st') →
      ∀ k m0 m1, getKey st.activeMandates k = some m0 →
        getKey st'.activeMandates k = some m1 → m1.totalAmount = m0.totalAmount) ∧
    (∀ st mandateId status, ∀ k m0 m1, getKey st.activeMandates k = some m0 →
      getKey (updateMandateStatus st mandateId status).2.activeMandates k = some m1 →
      m1.totalAmount = m0.totalAmount) ∧
    (∀ st mandateId now, ∀ k m0 m1, getKey st.activeMandates k = some m0 →
      getKey (isMandateValid st mandateId now).2.activeMandates k = some m1 →
      m1.totalAmount = m0.totalAmount) ∧
    (∀ st now, (st.activeMandates.map Prod.fst).Nodup →
      ∀ k m1, getKey (cleanupExpiredMandates st now).2.activeMandates k = some m1 →
        getKey st.activeMandates k = some m1) := by
  refine ⟨?_, ?_, ?_, ?_, ?_, ?_⟩
  · intro st userId currency items ttl now freshId m st' hfresh hcreate
    exact createCartMandate_total st userId currency items ttl now freshId m st' hfresh hcreate
  · intro st m merchantId merchantName ts nonce
    exact ⟨(merchantSignMandate_total st m merchantId merchantName ts nonce).1,
      getKey_setKey_self _ _ _,
      (merchantSignMandate_total st m merchantId merchantName ts nonce).2⟩
  · intro st mandateId userId ts nonce m2 st' h
    exact userSignMandate_total st mandateId userId ts nonce m2 st' h
  · intro st mandateId status
    exact updateMandateStatus_total st mandateId status
  · intro st mandateId now
    exact isMandateValid_total st mandateId now
  · intro st now hnd
    exact cleanupExpiredMandates_total st now hnd

/-- Witness for C7: on the concrete scenario mandate, the created total is
the sum of subtotals, and a status update and an expiry check leave the
stored total of the fixture mandate unchanged. -/
theorem C7_witness :
    c1P0.1.totalAmount = (c1P0.1.items.map (·.subtotal)).sum ∧
    ({ mW with status := PaymentStatus.completed }).totalAmount = mW.totalAmount ∧
    ({ mW with status := PaymentStatus.expired }).totalAmount = mW.totalAmount := by
  refine ⟨?_, ?_, ?_⟩
  · exact (C7_total_amount_invariant.1 ({} : MandateState) "u1" "USD" c1Items 30 1000
      "mandate_abc" c1P0.1 c1P0.2 (by decide) rfl).1
  · exact C7_total_amount_invariant.2.2.2.1 msW "mandate_w" PaymentStatus.completed
      "mandate_w" mW ({ mW with status := PaymentStatus.completed })
      (by decide) (by decide)
  · exact C7_total_amount_invariant.2.2.2.2.1 msW "mandate_w" 5000
      "mandate_w" mW ({ mW with status := PaymentStatus.expired })
      (by decide) (by decide)

/-- A token id holding a consumed token in the store. -/
def consumedAt (st : CredState) (tokenId : String) : Prop :=
  ∃ t, getKey st.tokens tokenId = some t ∧ t.consumed = true

theorem validateToken_of_consumed (st : CredState) (tokenId : String) (now : Nat)
    (h : consumedAt st tokenId) : validateToken st tokenId now = false := by
  obtain ⟨t, ht, hc⟩ := h
  simp [validateToken, ht, PaymentToken.isValid, hc]

theorem consumeToken_of_consumed (st : CredState) (tokenId : String) (now : Nat)
    (h : consumedAt st tokenId) : consumeToken st tokenId now = (none, st) := by
  obtain ⟨t, ht, hc⟩ := h
  simp [consumeToken, ht, PaymentToken.isValid, hc]

theorem applyCredOp_preserves_consumed (st : CredState) (tokenId : String)
    (op : CredOp) (hfresh : op.freshFor tokenId)
    (h : consumedAt st tokenId) : consumedAt (applyCredOp st op) tokenId := by
  obtain ⟨t, ht, hc⟩ := h
  cases op with
  | registerOp u ct cd cn lf b isd nn sc mx fid =>
    exact ⟨t, ht, hc⟩
  | deactivateOp cid =>
    cases hg : getKey st.credentials cid with
    | none => exact ⟨t, by simpa [applyCredOp, deactivateCredential, hg] using ht, hc⟩
    | some c => exact ⟨t, by simpa [applyCredOp, deactivateCredential, hg] using ht, hc⟩
  | issueTokenOp cid mid a cur ttl now ftid tv =>
    have hne : tokenId ≠ ftid := fun he => hfresh he.symm
    cases hg : getKey st.credentials cid with
    | none => exact ⟨t, by simpa [applyCredOp, issuePaymentToken, hg] using ht, hc⟩
    | some c =>
      by_cases hs : c.supportsTransaction a cur now
      · refine ⟨t, ?_, hc⟩
        simp only [applyCredOp, issuePaymentToken, hg, hs, not_true_eq_false,
          if_false, ite_false, Bool.true_eq_false]
        simpa [getKey_setKey_ne _ _ _ _ hne] using ht
      · exact ⟨t, by simpa [applyCredOp, issuePaymentToken, hg, hs] using ht, hc⟩
  | consumeOp tid now =>
    by_cases htid : tid = tokenId
    · subst htid
      have := consumeToken_of_consumed st tid now ⟨t, ht, hc⟩
      exact ⟨t, by simpa [applyCredOp, this] using ht, hc⟩
    · cases hg : getKey st.tokens tid with
      | none => exact ⟨t, by simpa [applyCredOp, consumeToken, hg] using ht, hc⟩
      | some tok =>
        by_cases hv : tok.isValid now
        · cases hcred : getKey st.credentials tok.credentialId with
          | none =>
            exact ⟨t, by simpa [applyCredOp, consumeToken, hg, hv, hcred] using ht, hc⟩
          | some c =>
            refine ⟨t, ?_, hc⟩
            have hne : tokenId ≠ tid := fun he => htid he.symm
            simp only [applyCredOp, consumeToken, hg, hv, hcred, not_true_eq_false,
              if_false, ite_false, Bool.true_eq_false]
            simpa [getKey_setKey_ne _ _ _ _ hne] using ht
        · exact ⟨t, by simpa [applyCredOp, consumeToken, hg, hv] using ht, hc⟩

theorem foldl_preserves_consumed (ops : List CredOp) (st : CredState) (tokenId : String)
    (hfresh : ∀ op ∈ ops, op.freshFor tokenId)
    (h : consumedAt st tokenId) : consumedAt (ops.foldl applyCredOp st) tokenId := by
  induction ops generalizing st with
  | nil => exact h
  | cons op rest ih =>
    exact ih (applyCredOp st op)
      (fun o ho => hfresh o (List.mem_cons_of_mem op ho))
      (applyCredOp_preserves_consumed st tokenId op (hfresh op (List.mem_cons_self op rest)) h)

/-- C4: once `consume_token` has succeeded for a token, `validate_token`
returns false at every time and every further `consume_token` returns none —
permanently: after any sequence of further credential-provider operations
(with freshly generated token ids), the token is still consumed, unredeemable
and its payload is never returned again. -/
theorem C4_token_single_use (st : CredState) (tokenId : String) (now : Nat)
    (p : ConsumedPayload) (st' : CredState)
    (h : consumeToken st tokenId now = (some p, st')) :
    (∀ now', validateToken st' tokenId now' = false) ∧
    (∀ now', consumeToken st' tokenId now' = (none, st')) ∧
    (∀ ops : List CredOp, (∀ op ∈ ops, op.freshFor tokenId) →
      ∀ now', validateToken (ops.foldl applyCredOp st') tokenId now' = false ∧
        (consumeToken (ops.foldl applyCredOp st') tokenId now').1 = none) := by
  have hcons : consumedAt st' tokenId := by
    unfold consumeToken at h
    cases hg : getKey st.tokens tokenId with
    | none => rw [hg] at h; simp at h
    | some token =>
      rw [hg] at h
      by_cases hv : token.isValid now
      · cases hcred : getKey st.credentials token.credentialId with
        | none => simp [hv, hcred] at h
        | some credential =>
          simp only [hv, hcred, not_true_eq_false, if_false, ite_false,
            Bool.true_eq_false, Prod.mk.injEq] at h
          obtain ⟨-, hst⟩ := h
          refine ⟨token.consume, ?_, rfl⟩
          rw [← hst]
          exact getKey_setKey_self _ _ _
      · simp [hv] at h
  refine ⟨fun now' => validateToken_of_consumed st' tokenId now' hcons,
    fun now' => consumeToken_of_consumed st' tokenId now' hcons,
    fun ops hf now' => ?_⟩
  have hc := foldl_preserves_consumed ops st' tokenId hf hcons
  exact ⟨validateToken_of_consumed _ tokenId now' hc,
    by rw [consumeToken_of_consumed _ tokenId now' hc]⟩

/-- Witness fixture: an active credential for user `u1`. -/
def credW : PaymentCredential :=
  { credentialId := "cred_1", userId := "u1", type := .card, lastFour := "1234",
    brand := "Visa", encryptedData := some (fernetEncrypt "data"), isDefault := true,
    priority := 0 }

/-- Witness fixture: an unconsumed token bound to `cred_1`. -/
def tokW : PaymentToken :=
  { tokenId := "tok_1", credentialId := "cred_1", userId := "u1",
    mandateId := "mandate_w", tokenValue := "v", amount := 10, currency := "USD",
    expiresAt := 2000 }

/-- Witness fixture: credential-provider state with the credential and token. -/
def csW : CredState :=
  { credentials := [("cred_1", credW)], userCredentials := [("u1", ["cred_1"])],
    tokens := [("tok_1", tokW)] }

/-- Witness for C4: consuming the fixture token succeeds once; afterwards
validation is false and a second consume returns none, also after a further
issue operation with a fresh token id. -/
theorem C4_witness :
    validateToken (consumeToken csW "tok_1" 50).2 "tok_1" 50 = false ∧
    (consumeToken (consumeToken csW "tok_1" 50).2 "tok_1" 60).1 = none ∧
    validateToken
      ([CredOp.issueTokenOp "cred_1" "mandate_w" 10 "USD" 30 70 "tok_2" "v2"].foldl
        applyCredOp (consumeToken csW "tok_1" 50).2) "tok_1" 80 = false := by
  have h := C4_token_single_use csW "tok_1" 50 _ (consumeToken csW "tok_1" 50).2 rfl
  refine ⟨h.1 50, by rw [(h.2.1 60)], ?_⟩
  exact (h.2.2 [CredOp.issueTokenOp "cred_1" "mandate_w" 10 "USD" 30 70 "tok_2" "v2"]
    (by intro op hop; simp at hop; subst hop; simp [CredOp.freshFor]) 80).1

/-- C10: when a token exists and is valid but its credential id is absent
from the credential store, `consume_token` returns none and leaves the state
untouched — the token is not marked consumed, so `validate_token` still
returns true afterwards. -/
theorem C10_consume_token_atomic (st : CredState) (tokenId : String) (now : Nat)
    (t : PaymentToken)
    (ht : getKey st.tokens tokenId = some t)
    (hvalid : t.isValid now = true)
    (hcred : getKey st.credentials t.credentialId = none) :
    consumeToken st tokenId now = (none, st) ∧
    validateToken st tokenId now = true := by
  constructor
  · simp [consumeToken, ht, hvalid, hcred]
  · simp [validateToken, ht, hvalid]

/-- Witness fixture: a valid token whose credential id is not registered. -/
def tokOrphan : PaymentToken :=
  { tokenId := "tok_o", credentialId := "cred_missing", userId := "u1",
    mandateId := "mandate_w", tokenValue := "v", amount := 10, currency := "USD",
    expiresAt := 2000 }

/-- Witness fixture: provider state holding only the orphan token. -/
def csOrphan : CredState := { tokens := [("tok_o", tokOrphan)] }

/-- Witness for C10: consuming the orphan token at time 50 fails with the
state unchanged, and validation still succeeds. -/
theorem C10_witness :
    consumeToken csOrphan "tok_o" 50 = (none, csOrphan) ∧
    validateToken csOrphan "tok_o" 50 = true :=
  C10_consume_token_atomic csOrphan "tok_o" 50 tokOrphan
    (by decide) (by decide) (by decide)

theorem credSortLE_total (c d : PaymentCredential) :
    credSortLE c d || credSortLE d c := by
  cases hc : c.isDefault <;> cases hd : d.isDefault <;>
    simp [credSortLE, hc, hd] <;> omega

theorem credSortLE_trans (a b c : PaymentCredential)
    (hab : credSortLE a b) (hbc : credSortLE b c) : credSortLE a c := by
  cases ha : a.isDefault <;> cases hb : b.isDefault <;> cases hc : c.isDefault <;>
    simp [credSortLE, ha, hb, hc] at hab hbc ⊢ <;> omega

/-- C9: `get_eligible_methods` returns a permutation of the user's
credentials passing `supports_transaction` (and the accepted-types filter
when a non-empty list is given), pairwise ordered by the sort key
`(not is_default, -priority)` — default credentials first, then descending
priority; a credential is in the result iff it is the user's and passes the
filter. In particular, a default credential precedes every non-default one
regardless of their priority numbers. -/
theorem C9_get_eligible_methods (st : CredState) (userId : String) (amount : ℚ)
    (currency : String) (accepted : Option (List String)) (now : Nat) :
    (getEligibleMethods st userId amount currency accepted now).Perm
      ((getUserCredentials st userId).filter (eligibleFilter amount currency accepted now)) ∧
    List.Pairwise (fun c d => credSortLE c d = true)
      (getEligibleMethods st userId amount currency accepted now) ∧
    (∀ c, c ∈ getEligibleMethods st userId amount currency accepted now ↔
      (c ∈ getUserCredentials st userId ∧
        eligibleFilter amount currency accepted now c = true)) := by
  refine ⟨List.mergeSort_perm _ _, ?_, ?_⟩
  · exact List.sorted_mergeSort
      (fun a b c hab hbc => credSortLE_trans a b c hab hbc)
      (fun a b => credSortLE_total a b) _
  · intro c
    simp [getEligibleMethods, List.mem_mergeSort, List.mem_filter]

end LinebotAP2
